import Mathlib

/-!
A shallow embedding of `src/fpgaperf.py` from fpga-tool-perf: the toolchain
adapter layer (Icecube2 and Radiant families), capability probing (`which`,
`have_exec`, the static `check_env` methods), the per-adapter `run`, `versions`
and `max_freq` methods, the constraint-file resolution helpers, `env_ready`,
and the entry checks of the `run` orchestrator.

Python-side effects are made explicit:
- the host filesystem is a `Host` record of the predicates the code consults
  (`os.path.isfile`, `os.access(_, X_OK)`, `os.path.exists`, `$PATH`);
- process environments are association lists (`Env`);
- an adapter `run` produces a trace of events (`RunEv`): timing-stage entry and
  exit (the `with Timed(self, 'bit-all')` block) and spawned external commands
  (`self.cmd(...)`), each command carrying its explicit environment overlay, or
  `none` when the call passes no `env=` argument;
- Python exceptions (`assert`, `FileNotFoundError`, `TypeError`, `IndexError`)
  and the spec's error taxonomy become an `Err` inductive, and fallible code
  returns `Except Err _`.
-/

namespace FpgaPerf

/-- Error taxonomy: the spec's named errors (§7) together with the concrete
Python exceptions that realise them in `src/fpgaperf.py`. -/
inductive Err where
  | unsupportedTarget
  | toolFailure
  | reportMissing
  | parseFailed
  | fileNotFound
  | assertFailed
  | typeFailed
  | indexFailed
  deriving DecidableEq, Repr

/-- Process environments as association lists. Lookup returns the first
binding, so `setv` models Python dict assignment (`env[k] = v`) by prepending,
which is lookup-equivalent to in-place update. -/
abbrev Env := List (String × String)

def Env.getv : Env → String → Option String
  | [], _ => none
  | (k2, v) :: e, k => if k2 == k then some v else Env.getv e k

def Env.setv (e : Env) (k v : String) : Env := (k, v) :: e

/-- The host-filesystem facts consulted by the capability prober:
`os.path.isfile`, `os.access(fpath, os.X_OK)`, `os.path.exists`, and the
entries of `os.environ["PATH"].split(os.pathsep)`. -/
structure Host where
  isFile : String → Bool
  accessXOK : String → Bool
  pathExists : String → Bool
  pathDirs : List String

/-- `is_exe` from `which`: `os.path.isfile(fpath) and os.access(fpath, os.X_OK)`. -/
def is_exe (h : Host) (fpath : String) : Bool := h.isFile fpath && h.accessXOK fpath

/-- `os.path.join(path, program)`: appends a separator unless `path` is empty
or already ends with one. -/
def pathJoin (d p : String) : String :=
  if d = "" then p else if d.endsWith "/" then d ++ p else d ++ "/" ++ p

/-- The `for path in os.environ["PATH"]...` loop of `which`: first directory
whose joined candidate is executable wins. -/
def searchPath (h : Host) : List String → String → Option String
  | [], _ => none
  | d :: rest, prog =>
    let exe_file := pathJoin d prog
    if is_exe h exe_file then some exe_file else searchPath h rest prog

/-- `which(program)` from `src/fpgaperf.py`. `os.path.split` yields a nonempty
directory part exactly when `program` contains a path separator; in that case
only the literal path is probed, otherwise `$PATH` is searched in order. -/
def which (h : Host) (program : String) : Option String :=
  if program.toList.contains '/' then
    if is_exe h program then some program else none
  else
    searchPath h h.pathDirs program

/-- `have_exec(mybin)`: `which(mybin) != None`. -/
def have_exec (h : Host) (mybin : String) : Bool := (which h mybin).isSome

/-- `Icecube2.ICECUBEDIR_DEFAULT = os.getenv("ICECUBEDIR", "/opt/lscc/iCEcube2.2017.08")`,
read from the ambient environment at module import. -/
def ICECUBEDIR_DEFAULT (ambient : Env) : String :=
  (ambient.getv "ICECUBEDIR").getD "/opt/lscc/iCEcube2.2017.08"

/-- `Radiant.RADIANTDIR_DEFAULT = os.getenv("RADIANTDIR", "/opt/lscc/radiant/1.0")`. -/
def RADIANTDIR_DEFAULT (ambient : Env) : String :=
  (ambient.getv "RADIANTDIR").getD "/opt/lscc/radiant/1.0"

/-- `Icecube2Synpro.check_env`. -/
def Icecube2Synpro.check_env (h : Host) (ambient : Env) : List (String × Bool) :=
  [("ICECUBEDIR", h.pathExists (ICECUBEDIR_DEFAULT ambient)),
   ("icetime", have_exec h "icetime")]

/-- `Icecube2LSE.check_env`. -/
def Icecube2LSE.check_env (h : Host) (ambient : Env) : List (String × Bool) :=
  [("ICECUBEDIR", h.pathExists (ICECUBEDIR_DEFAULT ambient)),
   ("icetime", have_exec h "icetime")]

/-- `Icecube2Yosys.check_env`. -/
def Icecube2Yosys.check_env (h : Host) (ambient : Env) : List (String × Bool) :=
  [("yosys", have_exec h "yosys"),
   ("ICECUBEDIR", h.pathExists (ICECUBEDIR_DEFAULT ambient)),
   ("icetime", have_exec h "icetime")]

/-- `Radiant.check_env` (inherited unchanged by `RadiantSynpro` and `RadiantLSE`). -/
def Radiant.check_env (h : Host) (ambient : Env) : List (String × Bool) :=
  [("RADIANTDIR", h.pathExists (RADIANTDIR_DEFAULT ambient)),
   ("iceunpack", have_exec h "iceunpack"),
   ("icetime", have_exec h "icetime")]

/-- Lookup in a capability report (`dict[k]` on the returned mapping). -/
def reportLookup (l : List (String × Bool)) (k : String) : Option Bool :=
  (l.find? (fun p => p.1 == k)).map Prod.snd

lemma searchPath_isSome_iff (h : Host) (ds : List String) (p : String) :
    (searchPath h ds p).isSome = true ↔ ∃ d ∈ ds, is_exe h (pathJoin d p) = true := by
  induction ds with
  | nil => simp [searchPath]
  | cons d rest ih =>
    by_cases hd : is_exe h (pathJoin d p) = true
    · simp [searchPath, hd]
    · simp only [Bool.not_eq_true] at hd
      simp [searchPath, hd, ih]

lemma have_exec_searches_path (h : Host) (p : String)
    (hp : p.toList.contains '/' = false) :
    have_exec h p = true ↔ ∃ d ∈ h.pathDirs, is_exe h (pathJoin d p) = true := by
  rw [have_exec, which, if_neg (by simpa using hp)]
  exact searchPath_isSome_iff h h.pathDirs p

/-- C5: every in-`src` adapter's `check_env` has a host-independent key list
(stable across repeated calls), each boolean value reports the actual presence
of the named executable or directory on the host (for an executable, via the
ordered `$PATH` search of `which`), and a missing executable yields the value
`false` — the probe is a total function into `Bool`, not a failure. -/
theorem check_env_deterministic_and_faithful (h : Host) (ambient : Env) :
    ((Icecube2Synpro.check_env h ambient).map Prod.fst = ["ICECUBEDIR", "icetime"]
      ∧ (Icecube2LSE.check_env h ambient).map Prod.fst = ["ICECUBEDIR", "icetime"]
      ∧ (Icecube2Yosys.check_env h ambient).map Prod.fst = ["yosys", "ICECUBEDIR", "icetime"]
      ∧ (Radiant.check_env h ambient).map Prod.fst = ["RADIANTDIR", "iceunpack", "icetime"])
    ∧ reportLookup (Icecube2Synpro.check_env h ambient) "icetime"
        = some (have_exec h "icetime")
    ∧ reportLookup (Icecube2Synpro.check_env h ambient) "ICECUBEDIR"
        = some (h.pathExists (ICECUBEDIR_DEFAULT ambient))
    ∧ (have_exec h "icetime" = true
        ↔ ∃ d ∈ h.pathDirs, is_exe h (pathJoin d "icetime") = true) := by
  refine ⟨⟨rfl, rfl, rfl, rfl⟩, ?_, ?_, ?_⟩
  · simp [reportLookup, Icecube2Synpro.check_env, List.find?]
  · simp [reportLookup, Icecube2Synpro.check_env, List.find?]
  · exact have_exec_searches_path h "icetime" (by decide)

/-- The adapter fields consulted by `run`: populated by the orchestrator and
the configure step (`Toolchain.project`) before `run` is called. -/
structure ToolState where
  srcs : List String
  top : String
  device : String
  package : String
  strategy : Option String
  deriving DecidableEq, Repr

/-- One step of an adapter `run`: entry into / exit from a `Timed` stage (the
`with Timed(self, 'bit-all')` block), or an external command spawned by
`self.cmd(name, args, env)`; the environment is `none` when the call passes no
explicit `env=` argument. -/
inductive RunEv where
  | stageEnter (s : String)
  | stageExit (s : String)
  | cmd (name args : String) (env : Option Env)
  deriving DecidableEq, Repr

/-- `' '.join(self.srcs)`. -/
def joinSpace (srcs : List String) : String := String.intercalate " " srcs

/-- The argument string `"--syn %s"`, extended with `" --strategy %s"` when a
strategy is set. -/
def synArgs (syn : String) (strategy : Option String) : String :=
  match strategy with
  | some s => "--syn " ++ syn ++ " --strategy " ++ s
  | none => "--syn " ++ syn

/-- The subprocess environment built by `Icecube2.run`: `os.environ.copy()`
followed by the four key assignments, in source order. -/
def Icecube2.envOverlay (ambient : Env) (st : ToolState) (icecubedir : String) : Env :=
  ((((ambient).setv "SRCS" (joinSpace st.srcs)).setv "TOP" st.top).setv
      "ICECUBEDIR" icecubedir).setv "ICEDEV" (st.device ++ "-" ++ st.package)

/-- `Icecube2.run`: inside the `bit-all` stage, the `icecubed.sh` wrapper with
the explicit environment overlay, then `iceunpack` with no `env=` argument;
after the stage exits, `icetime`. The synthesis-backend string `syn` is the
subclass's `self.syn()`. -/
def Icecube2.run (rootDir : String) (ambient : Env) (st : ToolState)
    (icecubedir syn : String) : List RunEv :=
  let env := Icecube2.envOverlay ambient st icecubedir
  [RunEv.stageEnter "bit-all",
   RunEv.cmd (rootDir ++ "/icecubed.sh") (synArgs syn st.strategy) (some env),
   RunEv.cmd "iceunpack" "my.bin my.asc" none,
   RunEv.stageExit "bit-all",
   RunEv.cmd "icetime" ("-tmd " ++ st.device ++ " my.asc") none]

/-- The (device, package) pairs asserted acceptable at the top of `Radiant.run`. -/
def Radiant.supported : List (String × String) :=
  [("up3k", "uwg30"), ("up5k", "uwg30"), ("up5k", "sg48")]

/-- The subprocess environment built by `Radiant.run`. -/
def Radiant.envOverlay (ambient : Env) (st : ToolState) (radiantdir : String) : Env :=
  ((((ambient).setv "SRCS" (joinSpace st.srcs)).setv "TOP" st.top).setv
      "RADIANTDIR" radiantdir).setv "RADDEV" (st.device ++ "-" ++ st.package)

/-- `Radiant.run`: the leading `assert (self.device, self.package) in [...]`
realises the spec's `UnsupportedTargetError`; on success the trace mirrors
`Icecube2.run`, with `icetime -tmd up5k` hard-coded and spawned after the
`bit-all` stage exits. -/
def Radiant.run (rootDir : String) (ambient : Env) (st : ToolState)
    (radiantdir syn : String) : Except Err (List RunEv) :=
  if (st.device, st.package) ∈ Radiant.supported then
    Except.ok
      [RunEv.stageEnter "bit-all",
       RunEv.cmd (rootDir ++ "/radiant.sh") (synArgs syn st.strategy)
         (some (Radiant.envOverlay ambient st radiantdir)),
       RunEv.cmd "iceunpack" "my.bin my.asc" none,
       RunEv.stageExit "bit-all",
       RunEv.cmd "icetime" "-tmd up5k my.asc" none]
  else Except.error Err.unsupportedTarget

/-- Modelled from the spec: the `configure()` step (`Toolchain.project` in
`toolchain.py`, which is not under `src/`) "validates that the requested
(device, package) combination is supported by this flow — fails with
`UnsupportedTargetError` if not. Pure state mutation, no external effects."
The Radiant support list is the one asserted in `Radiant.run` in
`src/fpgaperf.py`; the result pairs the configured state (or the error) with
the list of external commands spawned, which is empty on both paths. -/
def Radiant.configure (st : ToolState) (device package : String) :
    Except Err ToolState × List RunEv :=
  if (device, package) ∈ Radiant.supported then
    (Except.ok { st with device := device, package := package }, [])
  else (Except.error Err.unsupportedTarget, [])

/-- Scans a trace while tracking whether stage `s` is open; `true` iff every
spawned command occurs while `s` is open. -/
def allCmdsInside (s : String) : Bool → List RunEv → Bool
  | _, [] => true
  | isOpen, RunEv.stageEnter t :: r => allCmdsInside s (isOpen || t == s) r
  | isOpen, RunEv.stageExit t :: r => allCmdsInside s (isOpen && !(t == s)) r
  | isOpen, RunEv.cmd _ _ _ :: r => isOpen && allCmdsInside s isOpen r

/-- The names of the commands spawned while stage `s` is open. -/
def insideCmds (s : String) : Bool → List RunEv → List String
  | _, [] => []
  | isOpen, RunEv.stageEnter t :: r => insideCmds s (isOpen || t == s) r
  | isOpen, RunEv.stageExit t :: r => insideCmds s (isOpen && !(t == s)) r
  | isOpen, RunEv.cmd n _ _ :: r => (if isOpen then [n] else []) ++ insideCmds s isOpen r

/-- The names of the commands spawned while stage `s` is not open. -/
def outsideCmds (s : String) : Bool → List RunEv → List String
  | _, [] => []
  | isOpen, RunEv.stageEnter t :: r => outsideCmds s (isOpen || t == s) r
  | isOpen, RunEv.stageExit t :: r => outsideCmds s (isOpen && !(t == s)) r
  | isOpen, RunEv.cmd n _ _ :: r => (if isOpen then [] else [n]) ++ outsideCmds s isOpen r

/-- The environment overlays of the spawned commands, in order. -/
def envOfCmds (tr : List RunEv) : List (Option Env) :=
  tr.filterMap (fun e => match e with
    | RunEv.cmd _ _ eo => some eo
    | _ => none)

/-- C1: configuring the Radiant flow with a (device, package) pair outside
{(up3k,uwg30), (up5k,uwg30), (up5k,sg48)} fails with `UnsupportedTargetError`
and spawns no external command; `Radiant.run` re-checks the same list and also
rejects before spawning anything. -/
theorem radiant_configure_rejects_unsupported (st : ToolState) (device package : String)
    (h : (device, package) ∉ Radiant.supported) :
    Radiant.configure st device package = (Except.error Err.unsupportedTarget, [])
    ∧ ∀ rootDir ambient radiantdir syn,
        Radiant.run rootDir ambient { st with device := device, package := package }
            radiantdir syn
          = Except.error Err.unsupportedTarget := by
  constructor
  · rw [Radiant.configure, if_neg h]
  · intro rootDir ambient radiantdir syn
    rw [Radiant.run, if_neg (by simpa using h)]

theorem radiant_configure_rejects_unsupported_witness :
    ("hx8k", "ct256") ∉ Radiant.supported
    ∧ Radiant.configure ⟨[], "top", "", "", none⟩ "hx8k" "ct256"
        = (Except.error Err.unsupportedTarget, []) :=
  ⟨by decide,
   (radiant_configure_rejects_unsupported ⟨[], "top", "", "", none⟩ "hx8k" "ct256"
      (by decide)).1⟩

/-- C2 counterexample: in `Icecube2.run` not every spawned command executes
inside the open `bit-all` stage — evaluated at a concrete state, the scan
finds a command (the `icetime` invocation) outside the stage. -/
theorem icetime_escapes_bit_all :
    allCmdsInside "bit-all" false
      (Icecube2.run "/r" [] ⟨["top.v"], "top", "hx8k", "ct256", none⟩ "/opt/ic2" "synpro")
      = false := by decide

/-- C2 (amended): the `bit-all` stage covers every external command of `run`
except the final `icetime` timing analysis, which both adapters spawn after
the stage has exited. -/
theorem bit_all_covers_all_but_icetime (rootDir : String) (ambient : Env)
    (st : ToolState) (tooldir syn : String) :
    insideCmds "bit-all" false (Icecube2.run rootDir ambient st tooldir syn)
      = [rootDir ++ "/icecubed.sh", "iceunpack"]
    ∧ outsideCmds "bit-all" false (Icecube2.run rootDir ambient st tooldir syn)
      = ["icetime"]
    ∧ ∀ tr, Radiant.run rootDir ambient st tooldir syn = Except.ok tr →
        insideCmds "bit-all" false tr = [rootDir ++ "/radiant.sh", "iceunpack"]
        ∧ outsideCmds "bit-all" false tr = ["icetime"] := by
  refine ⟨by simp [Icecube2.run, insideCmds], by simp [Icecube2.run, outsideCmds], ?_⟩
  intro tr h
  rw [Radiant.run] at h
  split at h
  · injection h with h
    subst h
    exact ⟨by simp [insideCmds], by simp [outsideCmds]⟩
  · exact absurd h (by simp)

theorem bit_all_covers_all_but_icetime_witness :
    Radiant.run "/r" [] ⟨["a.v"], "t", "up5k", "sg48", none⟩ "/d" "lse"
      = Except.ok
          [RunEv.stageEnter "bit-all",
           RunEv.cmd "/r/radiant.sh" "--syn lse"
             (some (Radiant.envOverlay [] ⟨["a.v"], "t", "up5k", "sg48", none⟩ "/d")),
           RunEv.cmd "iceunpack" "my.bin my.asc" none,
           RunEv.stageExit "bit-all",
           RunEv.cmd "icetime" "-tmd up5k my.asc" none]
    ∧ insideCmds "bit-all" false
        [RunEv.stageEnter "bit-all",
         RunEv.cmd "/r/radiant.sh" "--syn lse"
           (some (Radiant.envOverlay [] ⟨["a.v"], "t", "up5k", "sg48", none⟩ "/d")),
         RunEv.cmd "iceunpack" "my.bin my.asc" none,
         RunEv.stageExit "bit-all",
         RunEv.cmd "icetime" "-tmd up5k my.asc" none]
        = ["/r/radiant.sh", "iceunpack"] :=
  ⟨rfl,
   ((bit_all_covers_all_but_icetime "/r" [] ⟨["a.v"], "t", "up5k", "sg48", none⟩
        "/d" "lse").2.2 _ rfl).1⟩

lemma Env.getv_setv_self (e : Env) (k v : String) : (e.setv k v).getv k = some v := by
  simp [Env.setv, Env.getv]

lemma Env.getv_setv_ne (e : Env) (k v k2 : String) (h : k ≠ k2) :
    (e.setv k v).getv k2 = e.getv k2 := by
  simp [Env.setv, Env.getv, h]

/-- C4 counterexample: not every command spawned by `Icecube2.run` receives
the ambient environment overlaid with the adapter keys — at a concrete state,
some spawned command (`iceunpack`, and likewise `icetime`) carries no overlay
at all. -/
theorem iceunpack_gets_no_overlay :
    ¬ (∀ eo ∈ envOfCmds
          (Icecube2.run "/r" [] ⟨["a.v"], "top", "hx8k", "ct256", none⟩ "/opt/ic2" "synpro"),
        eo = some (Icecube2.envOverlay [] ⟨["a.v"], "top", "hx8k", "ct256", none⟩ "/opt/ic2")) := by
  decide

/-- C4 (amended): the wrapper-script command receives exactly the ambient
environment copied and overlaid with the four adapter keys (every other key
reads through to the ambient value, so the caller's environment is shared
unmutated); the auxiliary `iceunpack` and `icetime` commands are spawned with
no explicit environment at all. -/
theorem cmd_env_overlay_exact (rootDir : String) (ambient : Env) (st : ToolState)
    (tooldir syn : String) :
    envOfCmds (Icecube2.run rootDir ambient st tooldir syn)
      = [some (Icecube2.envOverlay ambient st tooldir), none, none]
    ∧ (∀ k, k ∉ ["SRCS", "TOP", "ICECUBEDIR", "ICEDEV"] →
        (Icecube2.envOverlay ambient st tooldir).getv k = ambient.getv k)
    ∧ (Icecube2.envOverlay ambient st tooldir).getv "SRCS" = some (joinSpace st.srcs)
    ∧ (Icecube2.envOverlay ambient st tooldir).getv "TOP" = some st.top
    ∧ (Icecube2.envOverlay ambient st tooldir).getv "ICECUBEDIR" = some tooldir
    ∧ (Icecube2.envOverlay ambient st tooldir).getv "ICEDEV"
        = some (st.device ++ "-" ++ st.package)
    ∧ (∀ tr, Radiant.run rootDir ambient st tooldir syn = Except.ok tr →
        envOfCmds tr = [some (Radiant.envOverlay ambient st tooldir), none, none])
    ∧ (∀ k, k ∉ ["SRCS", "TOP", "RADIANTDIR", "RADDEV"] →
        (Radiant.envOverlay ambient st tooldir).getv k = ambient.getv k) := by
  refine ⟨by simp [Icecube2.run, envOfCmds], ?_, ?_, ?_, ?_, ?_, ?_, ?_⟩
  · intro k hk
    simp only [List.mem_cons, List.not_mem_nil, or_false] at hk
    push_neg at hk
    rw [Icecube2.envOverlay,
        Env.getv_setv_ne _ _ _ _ (Ne.symm hk.2.2.2),
        Env.getv_setv_ne _ _ _ _ (Ne.symm hk.2.2.1),
        Env.getv_setv_ne _ _ _ _ (Ne.symm hk.2.1),
        Env.getv_setv_ne _ _ _ _ (Ne.symm hk.1)]
  · rw [Icecube2.envOverlay,
        Env.getv_setv_ne _ _ _ _ (by decide), Env.getv_setv_ne _ _ _ _ (by decide),
        Env.getv_setv_ne _ _ _ _ (by decide), Env.getv_setv_self]
  · rw [Icecube2.envOverlay,
        Env.getv_setv_ne _ _ _ _ (by decide), Env.getv_setv_ne _ _ _ _ (by decide),
        Env.getv_setv_self]
  · rw [Icecube2.envOverlay, Env.getv_setv_ne _ _ _ _ (by decide), Env.getv_setv_self]
  · rw [Icecube2.envOverlay, Env.getv_setv_self]
  · intro tr h
    rw [Radiant.run] at h
    split at h
    · injection h with h
      subst h
      simp [envOfCmds]
    · exact absurd h (by simp)
  · intro k hk
    simp only [List.mem_cons, List.not_mem_nil, or_false] at hk
    push_neg at hk
    rw [Radiant.envOverlay,
        Env.getv_setv_ne _ _ _ _ (Ne.symm hk.2.2.2),
        Env.getv_setv_ne _ _ _ _ (Ne.symm hk.2.2.1),
        Env.getv_setv_ne _ _ _ _ (Ne.symm hk.2.1),
        Env.getv_setv_ne _ _ _ _ (Ne.symm hk.1)]

theorem cmd_env_overlay_exact_witness :
    (Icecube2.envOverlay [("PATH", "/bin")] ⟨["a.v"], "t", "up5k", "sg48", none⟩ "/d").getv
        "PATH" = some "/bin"
    ∧ envOfCmds
        [RunEv.stageEnter "bit-all",
         RunEv.cmd "/r/radiant.sh" "--syn lse"
           (some (Radiant.envOverlay [] ⟨["a.v"], "t", "up5k", "sg48", none⟩ "/d")),
         RunEv.cmd "iceunpack" "my.bin my.asc" none,
         RunEv.stageExit "bit-all",
         RunEv.cmd "icetime" "-tmd up5k my.asc" none]
        = [some (Radiant.envOverlay [] ⟨["a.v"], "t", "up5k", "sg48", none⟩ "/d"), none, none] :=
  ⟨(cmd_env_overlay_exact "/r" [("PATH", "/bin")] ⟨["a.v"], "t", "up5k", "sg48", none⟩
      "/d" "lse").2.1 "PATH" (by decide),
   (cmd_env_overlay_exact "/r" [] ⟨["a.v"], "t", "up5k", "sg48", none⟩
      "/d" "lse").2.2.2.2.2.2.1 _ rfl⟩

/-- `Icecube2.asc_ver`: scan for the line starting with `iCEcube2` and return
its second whitespace token (`l.split()[1].strip()`); the trailing `assert 0`
fires when no line matches, and indexing fails when the matched line has no
second token. -/
def asc_ver (lines : List String) : Except Err String :=
  match lines.find? (fun l => l.startsWith "iCEcube2") with
  | some l =>
    match (l.split Char.isWhitespace).filter (fun t => t ≠ "") with
    | _ :: v :: _ => Except.ok v.trim
    | _ => Except.error Err.indexFailed
  | none => Except.error Err.assertFailed

/-- `Icecube2.versions`. `yosys_ver()` lives outside `src/fpgaperf.py` and is
passed as an already-computed best-effort value; the `.asc` file content is
`some lines` exactly when `out_dir/my.asc` exists. Only `FileNotFoundError`
is caught: a present file whose scan reaches the `assert` propagates the
failure. -/
def Icecube2.versions (yosysv : Option String) (ascFile : Option (List String)) :
    Except Err (List (String × Option String)) :=
  match ascFile with
  | none => Except.ok [("yosys", yosysv), ("icecube2", none)]
  | some lines =>
    match asc_ver lines with
    | Except.ok v => Except.ok [("yosys", yosysv), ("icecube2", some v)]
    | Except.error e => Except.error e

/-- `Radiant.radiant_ver`: scan `radiantdir/data/ispsys.ini` for the line
starting with `ProductType` and return `l.split('=')[1].strip()`; `assert 0`
when no line matches. -/
def radiant_ver (lines : List String) : Except Err String :=
  match lines.find? (fun l => l.startsWith "ProductType") with
  | some l =>
    match l.splitOn "=" with
    | _ :: v :: _ => Except.ok v.trim
    | _ => Except.error Err.indexFailed
  | none => Except.error Err.assertFailed

/-- `Radiant.versions`: no exception handling at all — a missing
`radiantdir/data/ispsys.ini` raises `FileNotFoundError` out of the call. -/
def Radiant.versions (yosysv : Option String) (iniFile : Option (List String)) :
    Except Err (List (String × Option String)) :=
  match iniFile with
  | none => Except.error Err.fileNotFound
  | some lines =>
    match radiant_ver lines with
    | Except.ok v => Except.ok [("yosys", yosysv), ("radiant", some v)]
    | Except.error e => Except.error e

/-- C3 counterexample: an undeterminable tool version does not always yield a
null entry — `Radiant.versions` fails outright when its version source file is
absent, and `Icecube2.versions` fails when the file is present but lacks the
`iCEcube2` marker. -/
theorem versions_can_fail :
    Radiant.versions (some "Yosys 0.9") none = Except.error Err.fileNotFound
    ∧ Icecube2.versions (some "Yosys 0.9") (some ["Lattice"])
        = Except.error Err.assertFailed := ⟨rfl, rfl⟩

/-- C3 (amended): `Icecube2.versions` yields a null `icecube2` entry when the
`.asc` file is missing (only `FileNotFoundError` is caught); but an `.asc`
file lacking the `iCEcube2` marker fails the whole call via the `assert`, and
`Radiant.versions` fails outright when `ispsys.ini` is missing. -/
theorem versions_null_only_for_missing_asc (yosysv : Option String) :
    Icecube2.versions yosysv none = Except.ok [("yosys", yosysv), ("icecube2", none)]
    ∧ (∀ lines, (∀ l ∈ lines, l.startsWith "iCEcube2" = false) →
        Icecube2.versions yosysv (some lines) = Except.error Err.assertFailed)
    ∧ Radiant.versions yosysv none = Except.error Err.fileNotFound := by
  refine ⟨rfl, ?_, rfl⟩
  intro lines hl
  have hnone : lines.find? (fun l => l.startsWith "iCEcube2") = none :=
    List.find?_eq_none.mpr (fun x hx => by simp [hl x hx])
  simp [Icecube2.versions, asc_ver, hnone]

theorem versions_null_only_for_missing_asc_witness :
    Icecube2.versions none (some ["Lattice", "Date:"])
      = Except.error Err.assertFailed :=
  (versions_null_only_for_missing_asc none).2.1 ["Lattice", "Date:"]
    (by intro l hl; fin_cases hl <;> rfl)

/-- `Icecube2.max_freq`: `open(self.out_dir + '/icetime.txt')` raises
`FileNotFoundError` — the spec's `ReportMissingError` — when the report is
absent; otherwise the parse of the content runs. The filesystem maps paths to
contents; `icetime_parse` lives outside `src/fpgaperf.py` and is a parameter. -/
def Icecube2.max_freq (fs : String → Option (List String))
    (parse : List String → Except Err Nat) (out_dir : String) : Except Err Nat :=
  match fs (out_dir ++ "/icetime.txt") with
  | none => Except.error Err.reportMissing
  | some content => parse content

/-- `Radiant.max_freq`: same body as `Icecube2.max_freq`. -/
def Radiant.max_freq (fs : String → Option (List String))
    (parse : List String → Except Err Nat) (out_dir : String) : Except Err Nat :=
  match fs (out_dir ++ "/icetime.txt") with
  | none => Except.error Err.reportMissing
  | some content => parse content

/-- C8: when `out_dir/icetime.txt` is absent, both adapters' `max_freq` fail
with `ReportMissingError` and never return a frequency value. -/
theorem max_freq_requires_report (fs : String → Option (List String))
    (parse : List String → Except Err Nat) (out_dir : String)
    (h : fs (out_dir ++ "/icetime.txt") = none) :
    Icecube2.max_freq fs parse out_dir = Except.error Err.reportMissing
    ∧ Radiant.max_freq fs parse out_dir = Except.error Err.reportMissing
    ∧ ∀ v, Icecube2.max_freq fs parse out_dir ≠ Except.ok v := by
  refine ⟨?_, ?_, ?_⟩ <;> simp [Icecube2.max_freq, Radiant.max_freq, h]

theorem max_freq_requires_report_witness :
    Icecube2.max_freq (fun _ => none) (fun _ => Except.ok 0) "out"
      = Except.error Err.reportMissing :=
  (max_freq_requires_report (fun _ => none) (fun _ => Except.ok 0) "out" rfl).1

/-- The inner loop of `env_ready`:
`for v in tc.check_env().values(): if not v: return False`. -/
def allValsTrue : List (String × Bool) → Bool
  | [] => true
  | (_, v) :: r => if !v then false else allValsTrue r

/-- The outer loop of `env_ready` over the registry of capability reports. -/
def env_ready_loop : List (List (String × Bool)) → Bool
  | [] => true
  | ce :: rest => if !allValsTrue ce then false else env_ready_loop rest

/-- The `toolchains` registry evaluated for `check_env`. Five of its classes
(`Vivado`, `VivadoYosys`, `Arachne`, `VPR`, `Nextpnr`) are imported from
repository files outside `src/`; their capability reports enter as the
parameter `ext`, which in dict insertion order precedes the in-`src` entries.
`radiant-synpro` and `radiant-lse` both inherit `Radiant.check_env`. -/
def registry (ext : List (List (String × Bool))) (h : Host) (ambient : Env) :
    List (List (String × Bool)) :=
  ext ++ [Icecube2Synpro.check_env h ambient, Icecube2LSE.check_env h ambient,
          Icecube2Yosys.check_env h ambient, Radiant.check_env h ambient,
          Radiant.check_env h ambient]

/-- `env_ready()`: true iff no boolean in any registered class's capability
report is false. -/
def env_ready (ext : List (List (String × Bool))) (h : Host) (ambient : Env) : Bool :=
  env_ready_loop (registry ext h ambient)

lemma allValsTrue_iff (l : List (String × Bool)) :
    allValsTrue l = true ↔ ∀ kv ∈ l, kv.2 = true := by
  induction l with
  | nil => simp [allValsTrue]
  | cons kv r ih =>
    obtain ⟨k, v⟩ := kv
    cases v <;> simp [allValsTrue, ih]

lemma env_ready_loop_iff (rs : List (List (String × Bool))) :
    env_ready_loop rs = true ↔ ∀ ce ∈ rs, ∀ kv ∈ ce, kv.2 = true := by
  induction rs with
  | nil => simp [env_ready_loop]
  | cons ce rest ih =>
    cases hce : allValsTrue ce with
    | false =>
      simp only [env_ready_loop, hce, Bool.not_false, if_true]
      constructor
      · intro h
        exact absurd h Bool.false_ne_true
      · intro h
        have hc : allValsTrue ce = true :=
          (allValsTrue_iff ce).mpr (fun kv hkv => h ce (List.mem_cons_self _ _) kv hkv)
        rw [hce] at hc
        exact hc
    | true =>
      have hstep : env_ready_loop (ce :: rest) = env_ready_loop rest := by
        simp [env_ready_loop, hce]
      rw [hstep, ih]
      constructor
      · intro h ce2 hce2
        rcases List.mem_cons.mp hce2 with rfl | h2
        · exact (allValsTrue_iff ce2).mp hce
        · exact h ce2 h2
      · intro h ce2 h2
        exact h ce2 (List.mem_cons_of_mem _ h2)

/-- C9: `env_ready()` returns true iff every boolean in every registered
toolchain class's `check_env()` report is true — a single unmet requirement of
any one toolchain makes it false. -/
theorem env_ready_iff_all_requirements (ext : List (List (String × Bool)))
    (h : Host) (ambient : Env) :
    env_ready ext h ambient = true
      ↔ ∀ ce ∈ registry ext h ambient, ∀ kv ∈ ce, kv.2 = true :=
  env_ready_loop_iff (registry ext h ambient)

/-- An observable step of the orchestrator `run` before the adapter's own
`run` is reached: the adapter construction `toolchains[toolchain](root_dir)`
and each `os.path.exists` probe of a constraint-file path. -/
inductive OrchEv where
  | adapterConstructed (tc : String)
  | constraintProbe (path : String)
  deriving DecidableEq, Repr

/-- The `t.pcf` / `t.sdc` / `t.xdc` fields as assigned by `run`. -/
structure ConstraintFields where
  pcf : Option String
  sdc : Option String
  xdc : Option String
  deriving DecidableEq, Repr

/-- The fixed constraint-file location
`src_dir + '/' + project + '/' + family + '/' + device + package + '/' + toolchain + '.' + extension`. -/
def constraintPath (src_dir project family device package toolchain extension : String) :
    String :=
  src_dir ++ "/" ++ project ++ "/" ++ family ++ "/" ++ device ++ package ++ "/"
    ++ toolchain ++ "." ++ extension

/-- `get_constraint`: the fixed path when it exists, else `None`. -/
def get_constraint (fs : String → Bool)
    (src_dir project family device package toolchain extension : String) : Option String :=
  let path := constraintPath src_dir project family device package toolchain extension
  if fs path then some path else none

/-- `get_pcf`. -/
def get_pcf (fs : String → Bool) (src_dir project family device package toolchain : String) :
    Option String :=
  get_constraint fs src_dir project family device package toolchain "pcf"

/-- `get_sdc`. -/
def get_sdc (fs : String → Bool) (src_dir project family device package toolchain : String) :
    Option String :=
  get_constraint fs src_dir project family device package toolchain "sdc"

/-- `get_xdc`. -/
def get_xdc (fs : String → Bool) (src_dir project family device package toolchain : String) :
    Option String :=
  get_constraint fs src_dir project family device package toolchain "xdc"

/-- The arguments of the orchestrator `run` that its entry checks consult.
Python `None` is `none`; the seed is a Python integer. -/
structure RunArgs where
  family : Option String
  device : Option String
  package : Option String
  toolchain : Option String
  project : Option String
  seed : Option Int
  deriving DecidableEq, Repr

/-- `assert seed is None or 1 <= seed <= 0x7FFFFFFF`. -/
def seed_ok : Option Int → Bool
  | none => true
  | some s => decide (1 ≤ s) && decide (s ≤ 0x7FFFFFFF)

/-- The entry checks and constraint-file resolution of the orchestrator `run`
(`src/fpgaperf.py`, the six `assert`s in source order, the adapter
construction, the `get_pcf`/`get_sdc`/`get_xdc` probes, and the
`t.pcf`/`t.sdc`/`t.xdc` assignments — including the `if sdc` guard on the
`t.xdc` line and the `TypeError` that `os.path.realpath(None)` would raise
there). The result pairs the trace of observable steps with the configured
constraint fields; the subsequent `t.project`/`t.run` calls are the adapter
methods modelled separately. `rp` is `os.path.realpath`. -/
def run_entry (fs : String → Bool) (rp : String → String) (src_dir : String)
    (a : RunArgs) : List OrchEv × Except Err ConstraintFields :=
  if !(a.family == some "ice40" || a.family == some "xc7") then
    ([], Except.error Err.assertFailed)
  else if a.device == none then ([], Except.error Err.assertFailed)
  else if a.package == none then ([], Except.error Err.assertFailed)
  else if a.toolchain == none then ([], Except.error Err.assertFailed)
  else if a.project == none then ([], Except.error Err.assertFailed)
  else if !(seed_ok a.seed) then ([], Except.error Err.assertFailed)
  else
    let fam := a.family.getD ""
    let dev := a.device.getD ""
    let pkg := a.package.getD ""
    let tc := a.toolchain.getD ""
    let proj := a.project.getD ""
    let pcf := get_pcf fs src_dir proj fam dev pkg tc
    let sdc := get_sdc fs src_dir proj fam dev pkg tc
    let xdc := get_xdc fs src_dir proj fam dev pkg tc
    let ev := [OrchEv.adapterConstructed tc,
               OrchEv.constraintProbe (constraintPath src_dir proj fam dev pkg tc "pcf"),
               OrchEv.constraintProbe (constraintPath src_dir proj fam dev pkg tc "sdc"),
               OrchEv.constraintProbe (constraintPath src_dir proj fam dev pkg tc "xdc")]
    match sdc with
    | none => (ev, Except.ok ⟨pcf.map rp, none, none⟩)
    | some s =>
      match xdc with
      | some x => (ev, Except.ok ⟨pcf.map rp, some (rp s), some (rp x)⟩)
      | none => (ev, Except.error Err.typeFailed)

/-- C6: a seed outside `1..2^31-1` makes `run` fail at its entry asserts:
no adapter is constructed and no constraint path is probed, let alone any
external process spawned. -/
theorem run_rejects_bad_seed (fs : String → Bool) (rp : String → String)
    (src_dir : String) (a : RunArgs) (s : Int)
    (hs : a.seed = some s) (hr : ¬(1 ≤ s ∧ s ≤ 0x7FFFFFFF)) :
    run_entry fs rp src_dir a = ([], Except.error Err.assertFailed) := by
  have hseed : seed_ok a.seed = false := by
    rw [hs]
    simp only [seed_ok, Bool.and_eq_false_iff, decide_eq_false_iff_not]
    omega
  simp [run_entry, hseed]

theorem run_rejects_bad_seed_witness :
    run_entry (fun _ => false) id "/s"
        ⟨some "ice40", some "hx8k", some "ct256", some "nextpnr", some "blinky", some 0⟩
      = ([], Except.error Err.assertFailed) :=
  run_rejects_bad_seed (fun _ => false) id "/s"
    ⟨some "ice40", some "hx8k", some "ct256", some "nextpnr", some "blinky", some 0⟩
    0 rfl (by omega)

/-- C10: a family other than `ice40`/`xc7`, or a `None` device, package,
toolchain or project, makes `run` fail at its entry asserts, before the
adapter is constructed, any constraint path probed, or anything spawned. -/
theorem run_rejects_bad_family_or_missing_args (fs : String → Bool)
    (rp : String → String) (src_dir : String) (a : RunArgs)
    (h : ¬(a.family = some "ice40" ∨ a.family = some "xc7")
       ∨ a.device = none ∨ a.package = none ∨ a.toolchain = none ∨ a.project = none) :
    run_entry fs rp src_dir a = ([], Except.error Err.assertFailed) := by
  rcases h with h | h | h | h | h
  · push_neg at h
    simp [run_entry, h.1, h.2]
  · simp [run_entry, h]
  · simp [run_entry, h]
  · simp [run_entry, h]
  · simp [run_entry, h]

theorem run_rejects_bad_family_or_missing_args_witness :
    run_entry (fun _ => false) id "/s"
        ⟨some "ecp5", some "hx8k", some "ct256", some "nextpnr", some "blinky", none⟩
      = ([], Except.error Err.assertFailed) :=
  run_rejects_bad_family_or_missing_args (fun _ => false) id "/s"
    ⟨some "ecp5", some "hx8k", some "ct256", some "nextpnr", some "blinky", none⟩
    (Or.inl (by simp))

/-- C7 (the `t.xdc` line of `run` is a slip): the xdc constraint field is not
resolved independently of the sdc one. Evaluated on concrete filesystems:
when only the xdc file exists, `get_xdc` finds it yet `t.xdc` is set to
`None`; when only the sdc file exists, `os.path.realpath(None)` raises
`TypeError`; only when both exist is `t.xdc` set from the xdc file. -/
theorem xdc_resolution_depends_on_sdc :
    get_xdc (fun p => p == "/s/blinky/ice40/hx8kct256/nextpnr.xdc")
        "/s" "blinky" "ice40" "hx8k" "ct256" "nextpnr"
      = some "/s/blinky/ice40/hx8kct256/nextpnr.xdc"
    ∧ (run_entry (fun p => p == "/s/blinky/ice40/hx8kct256/nextpnr.xdc") id "/s"
        ⟨some "ice40", some "hx8k", some "ct256", some "nextpnr", some "blinky", none⟩).2
      = Except.ok ⟨none, none, none⟩
    ∧ (run_entry (fun p => p == "/s/blinky/ice40/hx8kct256/nextpnr.sdc") id "/s"
        ⟨some "ice40", some "hx8k", some "ct256", some "nextpnr", some "blinky", none⟩).2
      = Except.error Err.typeFailed
    ∧ (run_entry
        (fun p => p == "/s/blinky/ice40/hx8kct256/nextpnr.sdc"
          || p == "/s/blinky/ice40/hx8kct256/nextpnr.xdc") id "/s"
        ⟨some "ice40", some "hx8k", some "ct256", some "nextpnr", some "blinky", none⟩).2
      = Except.ok ⟨none, some "/s/blinky/ice40/hx8kct256/nextpnr.sdc",
                   some "/s/blinky/ice40/hx8kct256/nextpnr.xdc"⟩ :=
  ⟨rfl, rfl, rfl, rfl⟩

end FpgaPerf
